import Mathlib

/-!
Shallow embedding of the `react-native-agent` declaration surface
(`src/index.d.ts`): the enumerations, the option records and the method
signatures of the `Instana` facade, together with a behavioural model of
the bridge calls those declarations describe.
-/

/-- TypeScript `number` values appearing in the option records are modelled
as rationals; no floating-point arithmetic happens at this layer. -/
abbrev TSNumber := Rat

/-- The closed string-literal union
`export type HTTPCaptureConfig = 'AUTO' | 'NONE'`. -/
abbrev HTTPCaptureConfig := { s : String // s = "AUTO" ∨ s = "NONE" }

/-- The closed string-literal union `SuspendReportingType` with its four
declared alternatives. -/
abbrev SuspendReportingType :=
  { s : String // s = "NEVER" ∨ s = "LOW_BATTERY" ∨ s = "CELLULAR_CONNECTION" ∨
      s = "LOW_BATTERY_OR_CELLULAR_CONNECTION" }

/-- The numeric enumeration `export enum RateLimits` with its three named
tiers. -/
inductive RateLimits
  | DEFAULT_LIMITS
  | MID_LIMITS
  | MAX_LIMITS
  deriving DecidableEq, Fintype

/-- The underlying numeric value of each `RateLimits` member as declared
in the source (`DEFAULT_LIMITS = 0`, `MID_LIMITS = 1`, `MAX_LIMITS = 2`). -/
def RateLimits.toNat : RateLimits → Nat
  | .DEFAULT_LIMITS => 0
  | .MID_LIMITS => 1
  | .MAX_LIMITS => 2

/-- The declared type of the `rateLimits` field of `SetupOptions`:
the union `RateLimits | number`. -/
inductive RateLimitsValue
  | enum (r : RateLimits)
  | num (n : TSNumber)
  deriving DecidableEq

/-- The `SetupOptions` record: every field is declared optional (`?`),
so each is modelled as an `Option`. -/
structure SetupOptions where
  collectionEnabled : Option Bool
  enableCrashReporting : Option Bool
  slowSendInterval : Option TSNumber
  usiRefreshTimeIntervalInHrs : Option TSNumber
  httpCaptureConfig : Option HTTPCaptureConfig
  suspendReporting : Option SuspendReportingType
  dropBeaconReporting : Option Bool
  rateLimits : Option RateLimitsValue
  trustDeviceTiming : Option Bool
  enableW3CHeaders : Option Bool
  queryTrackedDomainList : Option (List String)

/-- The empty `SetupOptions` record: every optional field omitted. -/
def SetupOptions.empty : SetupOptions :=
  ⟨none, none, none, none, none, none, none, none, none, none, none⟩

/-- The `EventOptions` record: every field is declared optional (`?`).
The `meta` field, a flat string-to-string mapping, is modelled as an
association list. -/
structure EventOptions where
  startTime : Option TSNumber
  duration : Option TSNumber
  viewName : Option String
  meta : Option (List (String × String))
  backendTracingId : Option String
  customMetric : Option TSNumber

/-- The empty `EventOptions` record: every optional field omitted. -/
def EventOptions.empty : EventOptions :=
  ⟨none, none, none, none, none, none⟩

/-- An error value produced on the native side and delivered through a
promise rejection. -/
structure NativeError where
  message : String
  deriving DecidableEq

/-- Modelled from the spec: the native regex compiler that decides pattern
validity is not in this repository; the spec exhibits the unbalanced group
`"("` as its malformed pattern, so validity is modelled as balanced group
nesting over the pattern characters. -/
def groupBalanced : List Char → Nat → Bool
  | [], d => d == 0
  | c :: cs, d =>
    if c = '(' then groupBalanced cs (d + 1)
    else if c = ')' then d != 0 && groupBalanced cs (d - 1)
    else groupBalanced cs d

/-- Modelled from the spec: a regex-pattern string is valid when its
grouping parentheses are balanced (see `groupBalanced`). -/
def validRegexPattern (s : String) : Bool :=
  groupBalanced s.data 0

namespace Instana

/-- `setup(key, reportingUrl, options?): void` — fire-and-forget: the
declaration returns no result and surfaces no failure, so the model is a
total function into `Unit` accepting any option record (or none). -/
def setup (_key _reportingUrl : String) (_options : Option SetupOptions) : Unit := ()

/-- `setCollectionEnabled(enabled?): void`. -/
def setCollectionEnabled (_enabled : Option Bool) : Unit := ()

/-- `setView(viewName): void`. -/
def setView (_viewName : String) : Unit := ()

/-- `setUserID(userID): void`. -/
def setUserID (_userID : String) : Unit := ()

/-- `setUserName(userName): void`. -/
def setUserName (_userName : String) : Unit := ()

/-- `setUserEmail(userEmail): void`. -/
def setUserEmail (_userEmail : String) : Unit := ()

/-- `setMeta(key, value): void`. -/
def setMeta (_key _value : String) : Unit := ()

/-- `reportEvent(eventName, options?): void`. -/
def reportEvent (_eventName : String) (_options : Option EventOptions) : Unit := ()

/-- `setIgnoreURLsByRegex(regexArray): Promise<string>` — per its
declaration the promise resolves to `"Success"` or rejects with an error;
the settled promise is modelled as `Except NativeError String`, resolving
exactly when every pattern is valid (validity modelled from the spec in
`validRegexPattern`). -/
def setIgnoreURLsByRegex (patterns : List String) : Except NativeError String :=
  if patterns.all validRegexPattern then .ok "Success"
  else .error ⟨"invalid regex pattern"⟩

/-- `setRedactHTTPQueryByRegex(regexArray): Promise<string>` — declared
with the identical shape and contract as `setIgnoreURLsByRegex`. -/
def setRedactHTTPQueryByRegex (patterns : List String) : Except NativeError String :=
  if patterns.all validRegexPattern then .ok "Success"
  else .error ⟨"invalid regex pattern"⟩

/-- `setCaptureHeadersByRegex(regexArray): Promise<string>` — declared
with the identical shape and contract as `setIgnoreURLsByRegex`. -/
def setCaptureHeadersByRegex (patterns : List String) : Except NativeError String :=
  if patterns.all validRegexPattern then .ok "Success"
  else .error ⟨"invalid regex pattern"⟩

end Instana

/-- The resolved-value type carried by a promise-returning method. -/
inductive PromiseTy
  | pstring
  | pbool
  deriving DecidableEq, Fintype

/-- The declared return shape of a facade method: `void`, or a promise
resolving to a value of the given type. -/
inductive ReturnShape
  | voidRet
  | promise (t : PromiseTy)
  deriving DecidableEq

/-- Whether a return shape carries a rejection alternative: a promise
settles by resolving or rejecting, while a `void` return is fire-and-forget
with no completion signal and no observable failure. -/
def ReturnShape.canReject : ReturnShape → Bool
  | .voidRet => false
  | .promise _ => true

/-- The methods of the `InstanaInterface` facade. -/
inductive Method
  | setup
  | setCollectionEnabled
  | setView
  | getSessionID
  | setUserID
  | setUserName
  | setUserEmail
  | setMeta
  | setIgnoreURLsByRegex
  | setRedactHTTPQueryByRegex
  | setCaptureHeadersByRegex
  | reportEvent
  | getViewName
  | getCollectionEnabled
  deriving DecidableEq, Fintype

/-- The declared return shape of each facade method, transcribed from the
source declaration. -/
def methodReturn : Method → ReturnShape
  | .setup => .voidRet
  | .setCollectionEnabled => .voidRet
  | .setView => .voidRet
  | .getSessionID => .promise .pstring
  | .setUserID => .voidRet
  | .setUserName => .voidRet
  | .setUserEmail => .voidRet
  | .setMeta => .voidRet
  | .setIgnoreURLsByRegex => .promise .pstring
  | .setRedactHTTPQueryByRegex => .promise .pstring
  | .setCaptureHeadersByRegex => .promise .pstring
  | .reportEvent => .voidRet
  | .getViewName => .promise .pstring
  | .getCollectionEnabled => .promise .pbool

/-- The declared number of parameters of each facade method (optional
parameters included), transcribed from the source declaration. -/
def methodArity : Method → Nat
  | .setup => 3
  | .setCollectionEnabled => 1
  | .setView => 1
  | .getSessionID => 0
  | .setUserID => 1
  | .setUserName => 1
  | .setUserEmail => 1
  | .setMeta => 2
  | .setIgnoreURLsByRegex => 1
  | .setRedactHTTPQueryByRegex => 1
  | .setCaptureHeadersByRegex => 1
  | .reportEvent => 2
  | .getViewName => 0
  | .getCollectionEnabled => 0

/-- Whether the member is declared optional (`?`) on the interface,
transcribed from the source declaration. -/
def isOptionalMember : Method → Bool
  | .getViewName => true
  | .getCollectionEnabled => true
  | _ => false

/-- The promise-returning methods of the facade, in declaration order. -/
def promiseMethods : List Method :=
  [.getSessionID, .setIgnoreURLsByRegex, .setRedactHTTPQueryByRegex,
   .setCaptureHeadersByRegex, .getViewName, .getCollectionEnabled]

/-- An implementation of `InstanaInterface`: required members are plain
functions, the two optional members (`getViewName?`, `getCollectionEnabled?`)
are `Option`-valued and may be absent. Promise-returning members are
modelled as producing a settled promise, `Except NativeError` of the
resolved type. -/
structure InstanaImpl where
  setup : String → String → Option SetupOptions → Unit
  setCollectionEnabled : Option Bool → Unit
  setView : String → Unit
  getSessionID : Unit → Except NativeError String
  setUserID : String → Unit
  setUserName : String → Unit
  setUserEmail : String → Unit
  setMeta : String → String → Unit
  setIgnoreURLsByRegex : List String → Except NativeError String
  setRedactHTTPQueryByRegex : List String → Except NativeError String
  setCaptureHeadersByRegex : List String → Except NativeError String
  reportEvent : String → Option EventOptions → Unit
  getViewName : Option (Unit → Except NativeError String)
  getCollectionEnabled : Option (Unit → Except NativeError Bool)

/-- An implementation of the interface omitting both optional members, as
permitted on the platform where those capabilities are absent. -/
def androidImpl : InstanaImpl where
  setup := Instana.setup
  setCollectionEnabled := Instana.setCollectionEnabled
  setView := Instana.setView
  getSessionID := fun _ => .ok "session"
  setUserID := Instana.setUserID
  setUserName := Instana.setUserName
  setUserEmail := Instana.setUserEmail
  setMeta := Instana.setMeta
  setIgnoreURLsByRegex := Instana.setIgnoreURLsByRegex
  setRedactHTTPQueryByRegex := Instana.setRedactHTTPQueryByRegex
  setCaptureHeadersByRegex := Instana.setCaptureHeadersByRegex
  reportEvent := Instana.reportEvent
  getViewName := none
  getCollectionEnabled := none

/-- A presence mask over the eleven `SetupOptions` fields. -/
structure SetupMask where
  collectionEnabled : Bool
  enableCrashReporting : Bool
  slowSendInterval : Bool
  usiRefreshTimeIntervalInHrs : Bool
  httpCaptureConfig : Bool
  suspendReporting : Bool
  dropBeaconReporting : Bool
  rateLimits : Bool
  trustDeviceTiming : Bool
  enableW3CHeaders : Bool
  queryTrackedDomainList : Bool
  deriving DecidableEq

/-- A `SetupOptions` record populating exactly the fields selected by the
mask, with a sample value of each field type. -/
def setupOfMask (m : SetupMask) : SetupOptions where
  collectionEnabled := if m.collectionEnabled then some true else none
  enableCrashReporting := if m.enableCrashReporting then some false else none
  slowSendInterval := if m.slowSendInterval then some 0 else none
  usiRefreshTimeIntervalInHrs := if m.usiRefreshTimeIntervalInHrs then some (-1) else none
  httpCaptureConfig := if m.httpCaptureConfig then some ⟨"AUTO", Or.inl rfl⟩ else none
  suspendReporting := if m.suspendReporting then some ⟨"NEVER", Or.inl rfl⟩ else none
  dropBeaconReporting := if m.dropBeaconReporting then some false else none
  rateLimits := if m.rateLimits then some (.enum .DEFAULT_LIMITS) else none
  trustDeviceTiming := if m.trustDeviceTiming then some false else none
  enableW3CHeaders := if m.enableW3CHeaders then some false else none
  queryTrackedDomainList := if m.queryTrackedDomainList then some [] else none

/-- Which fields of a `SetupOptions` record are present. -/
def setupPresence (s : SetupOptions) : SetupMask where
  collectionEnabled := s.collectionEnabled.isSome
  enableCrashReporting := s.enableCrashReporting.isSome
  slowSendInterval := s.slowSendInterval.isSome
  usiRefreshTimeIntervalInHrs := s.usiRefreshTimeIntervalInHrs.isSome
  httpCaptureConfig := s.httpCaptureConfig.isSome
  suspendReporting := s.suspendReporting.isSome
  dropBeaconReporting := s.dropBeaconReporting.isSome
  rateLimits := s.rateLimits.isSome
  trustDeviceTiming := s.trustDeviceTiming.isSome
  enableW3CHeaders := s.enableW3CHeaders.isSome
  queryTrackedDomainList := s.queryTrackedDomainList.isSome

/-- A presence mask over the six `EventOptions` fields. -/
structure EventMask where
  startTime : Bool
  duration : Bool
  viewName : Bool
  meta : Bool
  backendTracingId : Bool
  customMetric : Bool
  deriving DecidableEq

/-- An `EventOptions` record populating exactly the fields selected by the
mask, with a sample value of each field type. -/
def eventOfMask (m : EventMask) : EventOptions where
  startTime := if m.startTime then some 0 else none
  duration := if m.duration then some 0 else none
  viewName := if m.viewName then some "" else none
  meta := if m.meta then some [] else none
  backendTracingId := if m.backendTracingId then some "" else none
  customMetric := if m.customMetric then some 0 else none

/-- Which fields of an `EventOptions` record are present. -/
def eventPresence (e : EventOptions) : EventMask where
  startTime := e.startTime.isSome
  duration := e.duration.isSome
  viewName := e.viewName.isSome
  meta := e.meta.isSome
  backendTracingId := e.backendTracingId.isSome
  customMetric := e.customMetric.isSome

/-- The declared defaults of the `SetupOptions` fields, transcribed from
the default documentation on each field in the source (`suspendReporting`
records the Android-side default). -/
structure SetupDefaultValues where
  collectionEnabled : Bool
  enableCrashReporting : Bool
  slowSendInterval : TSNumber
  usiRefreshTimeIntervalInHrs : TSNumber
  httpCaptureConfig : HTTPCaptureConfig
  suspendReporting : SuspendReportingType
  dropBeaconReporting : Bool
  rateLimits : RateLimitsValue
  trustDeviceTiming : Bool
  enableW3CHeaders : Bool

/-- The default values declared in the source: collection on, crash
reporting off, slow-send disabled (0.0), session-ID refresh never (-1.0),
HTTP capture `AUTO`, Android suspend policy `LOW_BATTERY`, dropped-beacon
reporting off, `RateLimits.DEFAULT_LIMITS`, device timing not trusted, W3C
headers off. -/
def setupDefaults : SetupDefaultValues where
  collectionEnabled := true
  enableCrashReporting := false
  slowSendInterval := 0
  usiRefreshTimeIntervalInHrs := -1
  httpCaptureConfig := ⟨"AUTO", Or.inl rfl⟩
  suspendReporting := ⟨"LOW_BATTERY", Or.inr (Or.inl rfl)⟩
  dropBeaconReporting := false
  rateLimits := .enum .DEFAULT_LIMITS
  trustDeviceTiming := false
  enableW3CHeaders := false

/-- `Option.isSome` of a presence-conditional field equals the mask bit. -/
theorem isSome_ite {α : Type} (b : Bool) (v : α) :
    (if b then some v else none).isSome = b := by
  cases b <;> rfl

/-- Claim C1: each of the three regex-pattern methods takes an array of
regex-pattern strings and returns a promise resolving to the literal
success string "Success" for every valid pattern array, rejects with a
native error on an input containing the malformed pattern "(", and all
three methods have this identical shape. -/
theorem spec_C1 (ps : List String) (h : ps.all validRegexPattern = true) :
    Instana.setIgnoreURLsByRegex ps = .ok "Success" ∧
    Instana.setRedactHTTPQueryByRegex ps = .ok "Success" ∧
    Instana.setCaptureHeadersByRegex ps = .ok "Success" ∧
    (∃ e, Instana.setIgnoreURLsByRegex ["("] = .error e) ∧
    (∃ e, Instana.setRedactHTTPQueryByRegex ["("] = .error e) ∧
    (∃ e, Instana.setCaptureHeadersByRegex ["("] = .error e) ∧
    Instana.setRedactHTTPQueryByRegex = Instana.setIgnoreURLsByRegex ∧
    Instana.setCaptureHeadersByRegex = Instana.setIgnoreURLsByRegex := by
  refine ⟨?_, ?_, ?_, ⟨⟨"invalid regex pattern"⟩, rfl⟩,
    ⟨⟨"invalid regex pattern"⟩, rfl⟩, ⟨⟨"invalid regex pattern"⟩, rfl⟩, rfl, rfl⟩
  · simp [Instana.setIgnoreURLsByRegex, h]
  · simp [Instana.setRedactHTTPQueryByRegex, h]
  · simp [Instana.setCaptureHeadersByRegex, h]

/-- Witness for C1 at the concrete valid pattern array from the spec. -/
theorem spec_C1_witness :
    (["^/health$"].all validRegexPattern = true) ∧
    Instana.setIgnoreURLsByRegex ["^/health$"] = .ok "Success" :=
  ⟨by decide, (spec_C1 ["^/health$"] (by decide)).1⟩

/-- Claim C2: `setup(key, reportingUrl, options?)` accepts every subset of
`SetupOptions` fields, the empty record, and the omitted options argument,
returning no result and surfacing no failure; every field is individually
optional (each presence mask is realised by some record). -/
theorem spec_C2 :
    (∀ k u, Instana.setup k u none = ()) ∧
    (∀ k u, Instana.setup k u (some SetupOptions.empty) = ()) ∧
    (∀ k u o, Instana.setup k u (some o) = ()) ∧
    (∀ m : SetupMask, setupPresence (setupOfMask m) = m) := by
  refine ⟨fun _ _ => rfl, fun _ _ => rfl, fun _ _ _ => rfl, ?_⟩
  intro m
  cases m
  simp [setupOfMask, setupPresence, isSome_ite]

/-- Claim C3: a facade method carries a declared failure channel (promise
rejection) exactly when it returns a promise; the promise-returning methods
are exactly the six listed in `promiseMethods`, and every other method has
the `void` return shape with no failure channel. -/
theorem spec_C3 :
    (∀ m : Method, (methodReturn m).canReject = true ↔ m ∈ promiseMethods) ∧
    (∀ m : Method, (methodReturn m).canReject = false ↔ methodReturn m = .voidRet) ∧
    (∀ m : Method, m ∉ promiseMethods → methodReturn m = .voidRet) := by
  refine ⟨by decide, by decide, by decide⟩

/-- Claim C4: `getViewName` and `getCollectionEnabled` are exactly the
optional members of the interface, and an implementation may omit both, so
callers must feature-detect; all other members are required (present in
every implementation). -/
theorem spec_C4 :
    (∀ m : Method, isOptionalMember m = true ↔
      (m = .getViewName ∨ m = .getCollectionEnabled)) ∧
    (∃ impl : InstanaImpl, impl.getViewName = none ∧ impl.getCollectionEnabled = none) := by
  exact ⟨by decide, ⟨androidImpl, rfl, rfl⟩⟩

/-- Claim C5: `reportEvent(eventName, options?)` accepts a string event
name plus an `EventOptions` record whose six fields are independently
optional; in particular the record with only `customMetric = 42` is
accepted without any other field present. -/
theorem spec_C5 :
    (∀ n o, Instana.reportEvent n o = ()) ∧
    (Instana.reportEvent "purchase"
      (some { EventOptions.empty with customMetric := some 42 }) = ()) ∧
    (∃ e : EventOptions, e.customMetric = some 42 ∧ e.startTime = none ∧
      e.duration = none ∧ e.viewName = none ∧ e.meta = none ∧
      e.backendTracingId = none) ∧
    (∀ m : EventMask, eventPresence (eventOfMask m) = m) := by
  refine ⟨fun _ _ => rfl, rfl,
    ⟨{ EventOptions.empty with customMetric := some 42 }, rfl, rfl, rfl, rfl, rfl, rfl⟩, ?_⟩
  intro m
  cases m
  simp [eventOfMask, eventPresence, isSome_ite]

/-- Claim C6: `RateLimits.MAX_LIMITS` is assignable to the `rateLimits`
field both as the enum value and as its underlying number, and the field's
declared type admits every `RateLimits` member and every number. -/
theorem spec_C6 :
    (∀ r : RateLimits, ∃ s : SetupOptions, s.rateLimits = some (.enum r) ∧
      Instana.setup "key" "https://example.com" (some s) = ()) ∧
    (∀ n : TSNumber, ∃ s : SetupOptions, s.rateLimits = some (.num n) ∧
      Instana.setup "key" "https://example.com" (some s) = ()) ∧
    (∃ s : SetupOptions, s.rateLimits = some (.enum .MAX_LIMITS)) ∧
    (∃ s : SetupOptions, s.rateLimits =
      some (.num ((RateLimits.MAX_LIMITS.toNat : Nat) : TSNumber))) := by
  refine ⟨fun r => ⟨{ SetupOptions.empty with rateLimits := some (.enum r) }, rfl, rfl⟩,
    fun n => ⟨{ SetupOptions.empty with rateLimits := some (.num n) }, rfl, rfl⟩,
    ⟨{ SetupOptions.empty with rateLimits := some (.enum .MAX_LIMITS) }, rfl⟩,
    ⟨{ SetupOptions.empty with
        rateLimits := some (.num ((RateLimits.MAX_LIMITS.toNat : Nat) : TSNumber)) }, rfl⟩⟩

/-- Claim C7: `getSessionID()` takes no arguments and returns a promise
resolving to a string; in every implementation the settled call either
resolves with a string value or rejects with a native error. -/
theorem spec_C7 :
    methodArity .getSessionID = 0 ∧
    methodReturn .getSessionID = .promise .pstring ∧
    (∀ impl : InstanaImpl,
      (∃ s : String, impl.getSessionID () = .ok s) ∨
      (∃ e : NativeError, impl.getSessionID () = .error e)) := by
  refine ⟨rfl, rfl, fun impl => ?_⟩
  cases h : impl.getSessionID () with
  | ok s => exact Or.inl ⟨s, rfl⟩
  | error e => exact Or.inr ⟨e, rfl⟩

/-- Claim C8: `RateLimits` is a closed enumeration of exactly the three
named tiers, every `HTTPCaptureConfig` value is "AUTO" or "NONE", and
every `SuspendReportingType` value is one of the four declared strings. -/
theorem spec_C8 :
    (∀ r : RateLimits, r = .DEFAULT_LIMITS ∨ r = .MID_LIMITS ∨ r = .MAX_LIMITS) ∧
    (∀ h : HTTPCaptureConfig, h.val = "AUTO" ∨ h.val = "NONE") ∧
    (∀ s : SuspendReportingType, s.val = "NEVER" ∨ s.val = "LOW_BATTERY" ∨
      s.val = "CELLULAR_CONNECTION" ∨ s.val = "LOW_BATTERY_OR_CELLULAR_CONNECTION") := by
  refine ⟨fun r => ?_, fun h => h.property, fun s => s.property⟩
  cases r
  · exact Or.inl rfl
  · exact Or.inr (Or.inl rfl)
  · exact Or.inr (Or.inr rfl)

/-- Claim C9: the three `RateLimits` tiers have underlying values 0, 1, 2,
and the declared default of the `rateLimits` option is
`RateLimits.DEFAULT_LIMITS`, whose underlying value is 0. -/
theorem spec_C9 :
    RateLimits.toNat .DEFAULT_LIMITS = 0 ∧
    RateLimits.toNat .MID_LIMITS = 1 ∧
    RateLimits.toNat .MAX_LIMITS = 2 ∧
    setupDefaults.rateLimits = .enum .DEFAULT_LIMITS ∧
    (∃ r : RateLimits, setupDefaults.rateLimits = .enum r ∧ r.toNat = 0) :=
  ⟨rfl, rfl, rfl, rfl, ⟨.DEFAULT_LIMITS, rfl, rfl⟩⟩

/-- Claim C10: the numeric `SetupOptions` fields are unconstrained at this
layer: for every number, including values outside the documented 2-3600
range for `slowSendInterval` and either sign for
`usiRefreshTimeIntervalInHrs`, a record with that value is accepted by
`setup` without error. -/
theorem spec_C10 :
    (∀ n : TSNumber, ∃ s : SetupOptions, s.slowSendInterval = some n ∧
      Instana.setup "key" "https://example.com" (some s) = ()) ∧
    (∀ n : TSNumber, ∃ s : SetupOptions, s.usiRefreshTimeIntervalInHrs = some n ∧
      Instana.setup "key" "https://example.com" (some s) = ()) ∧
    (∃ s : SetupOptions, s.slowSendInterval = some 10000 ∧
      Instana.setup "key" "https://example.com" (some s) = ()) ∧
    (∃ s : SetupOptions, s.usiRefreshTimeIntervalInHrs = some (-5) ∧
      Instana.setup "key" "https://example.com" (some s) = ()) := by
  refine ⟨fun n => ⟨{ SetupOptions.empty with slowSendInterval := some n }, rfl, rfl⟩,
    fun n => ⟨{ SetupOptions.empty with usiRefreshTimeIntervalInHrs := some n }, rfl, rfl⟩,
    ⟨{ SetupOptions.empty with slowSendInterval := some 10000 }, rfl, rfl⟩,
    ⟨{ SetupOptions.empty with usiRefreshTimeIntervalInHrs := some (-5) }, rfl, rfl⟩⟩
